import Mathlib

/-!
Shallow embedding of the audit logging engine of
`src/automation_orchestrator/audit.py` (class `AuditLogger`), together with
theorems settling the behavioural claims about it.

Modelling conventions:
* Python dict/list/str/int/None values flowing through the logger are
  modelled by the `Json` type below; `json.dumps` (default separators,
  `ensure_ascii=True`) is modelled by `dumps`, and `json.dumps(_, sort_keys=True)`
  by `dumpsSorted`.
* `time.time()` clock readings are modelled as integers (an arbitrary tick
  granularity: the logger only compares timestamps and translates them by
  constant offsets, so nothing depends on the grain); the ISO timestamp
  string produced by `datetime.now(timezone.utc)` is passed in as an argument.
* Library-provided cryptographic primitives (`hmac`/`hashlib`) are abstracted
  as function parameters bundled in `Crypto`; the logger only ever applies
  them, so every theorem holds for an arbitrary implementation.
* File-system effects (the log file itself, the side security log) are out of
  the state; the write buffer, caches, windows and counters are explicit.
-/

namespace AuditPy

/-- A Python value as handled by the logger: the JSON-serialisable fragment. -/
inductive Json where
  | null
  | bool (b : Bool)
  | num (n : Int)
  | str (s : String)
  | arr (elems : List Json)
  | obj (kvs : List (String × Json))
deriving Repr

mutual
/-- Decidable structural equality of values (Python `==` on parsed data). -/
def jsonDecEq : (a b : Json) → Decidable (a = b)
  | .null, .null => isTrue rfl
  | .bool a, .bool b =>
    match decEq a b with
    | isTrue h => isTrue (h ▸ rfl)
    | isFalse h => isFalse (fun he => h (Json.bool.inj he))
  | .num a, .num b =>
    match decEq a b with
    | isTrue h => isTrue (h ▸ rfl)
    | isFalse h => isFalse (fun he => h (Json.num.inj he))
  | .str a, .str b =>
    match decEq a b with
    | isTrue h => isTrue (h ▸ rfl)
    | isFalse h => isFalse (fun he => h (Json.str.inj he))
  | .arr xs, .arr ys =>
    match jsonDecEqList xs ys with
    | isTrue h => isTrue (h ▸ rfl)
    | isFalse h => isFalse (fun he => h (Json.arr.inj he))
  | .obj xs, .obj ys =>
    match jsonDecEqKvs xs ys with
    | isTrue h => isTrue (h ▸ rfl)
    | isFalse h => isFalse (fun he => h (Json.obj.inj he))
  | .null, .bool _ | .null, .num _ | .null, .str _ | .null, .arr _ | .null, .obj _
  | .bool _, .null | .bool _, .num _ | .bool _, .str _ | .bool _, .arr _ | .bool _, .obj _
  | .num _, .null | .num _, .bool _ | .num _, .str _ | .num _, .arr _ | .num _, .obj _
  | .str _, .null | .str _, .bool _ | .str _, .num _ | .str _, .arr _ | .str _, .obj _
  | .arr _, .null | .arr _, .bool _ | .arr _, .num _ | .arr _, .str _ | .arr _, .obj _
  | .obj _, .null | .obj _, .bool _ | .obj _, .num _ | .obj _, .str _ | .obj _, .arr _ =>
    isFalse (fun he => Json.noConfusion he)
termination_by structural a => a

/-- `jsonDecEq` on element lists. -/
def jsonDecEqList : (xs ys : List Json) → Decidable (xs = ys)
  | [], [] => isTrue rfl
  | x :: xs, y :: ys =>
    match jsonDecEq x y with
    | isFalse h => isFalse (fun he => h (List.cons.inj he).1)
    | isTrue h1 =>
      match jsonDecEqList xs ys with
      | isTrue h2 => isTrue (h1 ▸ h2 ▸ rfl)
      | isFalse h2 => isFalse (fun he => h2 (List.cons.inj he).2)
  | [], _ :: _ => isFalse (fun he => List.noConfusion he)
  | _ :: _, [] => isFalse (fun he => List.noConfusion he)
termination_by structural l => l

/-- `jsonDecEq` on member lists. -/
def jsonDecEqKvs : (xs ys : List (String × Json)) → Decidable (xs = ys)
  | [], [] => isTrue rfl
  | (k, v) :: xs, (k2, v2) :: ys =>
    match decEq k k2 with
    | isFalse h => isFalse (fun he => h (congrArg Prod.fst (List.cons.inj he).1))
    | isTrue hk =>
      match jsonDecEq v v2 with
      | isFalse h => isFalse (fun he => h (congrArg Prod.snd (List.cons.inj he).1))
      | isTrue hv =>
        match jsonDecEqKvs xs ys with
        | isTrue ht => isTrue (hk ▸ hv ▸ ht ▸ rfl)
        | isFalse h => isFalse (fun he => h (List.cons.inj he).2)
  | [], _ :: _ => isFalse (fun he => List.noConfusion he)
  | _ :: _, [] => isFalse (fun he => List.noConfusion he)
termination_by structural l => l
end

instance : DecidableEq Json := jsonDecEq

/-- Lower-case hexadecimal digit. -/
def hexDigit (n : Nat) : Char :=
  if n < 10 then Char.ofNat (48 + n) else Char.ofNat (87 + n)

/-- Four lower-case hex digits, as used by the `\uXXXX` escapes of `json.dumps`. -/
def hex4 (n : Nat) : String :=
  String.mk [hexDigit (n / 4096 % 16), hexDigit (n / 256 % 16),
             hexDigit (n / 16 % 16), hexDigit (n % 16)]

/-- Escape of one character under `json.dumps` defaults (`ensure_ascii=True`):
characters outside the printable ASCII range `0x20..0x7e` are `\u`-escaped,
with surrogate pairs above `0xffff`. -/
def pyJsonEscapeChar (c : Char) : String :=
  if c = '"' then "\\\""
  else if c = '\\' then "\\\\"
  else if c = '\n' then "\\n"
  else if c = '\t' then "\\t"
  else if c = '\r' then "\\r"
  else if c.toNat = 8 then "\\b"
  else if c.toNat = 12 then "\\f"
  else if c.toNat < 32 || 127 ≤ c.toNat then
    if c.toNat ≤ 65535 then "\\u" ++ hex4 c.toNat
    else
      let v := c.toNat - 65536
      "\\u" ++ hex4 (55296 + v / 1024) ++ "\\u" ++ hex4 (56320 + v % 1024)
  else String.mk [c]

/-- A JSON string literal as produced by `json.dumps`. -/
def pyJsonQuote (s : String) : String :=
  "\"" ++ String.join (s.data.map pyJsonEscapeChar) ++ "\""

mutual
/-- `json.dumps` with its default separators `", "` and `": "`. -/
def dumps : Json → String
  | .null => "null"
  | .bool true => "true"
  | .bool false => "false"
  | .num n => toString n
  | .str s => pyJsonQuote s
  | .arr xs => "[" ++ dumpsElems xs ++ "]"
  | .obj kvs => "\x7b" ++ dumpsMembers kvs ++ "\x7d"
termination_by structural j => j

/-- Array elements of `json.dumps`, comma-space separated. -/
def dumpsElems : List Json → String
  | [] => ""
  | [x] => dumps x
  | x :: y :: xs => dumps x ++ ", " ++ dumpsElems (y :: xs)
termination_by structural l => l

/-- Object members of `json.dumps`, in the order given. -/
def dumpsMembers : List (String × Json) → String
  | [] => ""
  | [(k, v)] => pyJsonQuote k ++ ": " ++ dumps v
  | (k, v) :: m :: kvs => pyJsonQuote k ++ ": " ++ dumps v ++ ", " ++ dumpsMembers (m :: kvs)
termination_by structural l => l
end

/-- Boolean string order matching Python string comparison (code points). -/
def strLe (a b : String) : Bool := a == b || decide (a < b)

/-- Insert one key-value pair into a key-sorted list of pairs. -/
def insertPairSorted (p : String × Json) : List (String × Json) → List (String × Json)
  | [] => [p]
  | q :: qs => if strLe p.1 q.1 then p :: q :: qs else q :: insertPairSorted p qs

/-- Sort object members by key (Python `sorted`; keys of a dict are unique). -/
def sortPairs : List (String × Json) → List (String × Json)
  | [] => []
  | p :: ps => insertPairSorted p (sortPairs ps)

mutual
/-- Recursively sort every object of a value by key, as `sort_keys=True` does. -/
def sortKeysDeep : Json → Json
  | .null => .null
  | .bool b => .bool b
  | .num n => .num n
  | .str s => .str s
  | .arr xs => .arr (sortArrDeep xs)
  | .obj kvs => .obj (sortPairs (sortKvsDeep kvs))
termination_by structural j => j

/-- `sortKeysDeep` over array elements. -/
def sortArrDeep : List Json → List Json
  | [] => []
  | x :: xs => sortKeysDeep x :: sortArrDeep xs
termination_by structural l => l

/-- `sortKeysDeep` over object values. -/
def sortKvsDeep : List (String × Json) → List (String × Json)
  | [] => []
  | (k, v) :: kvs => (k, sortKeysDeep v) :: sortKvsDeep kvs
termination_by structural l => l
end

/-- `json.dumps(x, sort_keys=True)`. -/
def dumpsSorted (j : Json) : String := dumps (sortKeysDeep j)

/-- Top-level member lookup in an object (`dict.__getitem__` domain). -/
def jsonGet (j : Json) (k : String) : Option Json :=
  match j with
  | .obj kvs => (kvs.find? (fun kv => kv.1 == k)).map (fun kv => kv.2)
  | _ => .none

/-- `dict.get(k, default)` on an object value. -/
def jsonGetD (j : Json) (k : String) (d : Json) : Json := (jsonGet j k).getD d

/-- Remove a top-level member from an object, other values unchanged. -/
def jsonRemoveKey (j : Json) (k : String) : Json :=
  match j with
  | .obj kvs => .obj (kvs.filter (fun kv => kv.1 != k))
  | j => j

/-- Python truthiness of a `Json` value. -/
def pyTruthy : Json → Bool
  | .null => false
  | .bool b => b
  | .num n => n != 0
  | .str s => s != ""
  | .arr xs => !xs.isEmpty
  | .obj kvs => !kvs.isEmpty

/-- Python truthiness of an optional string (`None` and `""` are falsy). -/
def pyTruthyStrOpt : Option String → Bool
  | .none => false
  | .some s => s != ""

/-- `x or default` on an optional string, using Python truthiness. -/
def pyOrDefault (x : Option String) (d : String) : String :=
  match x with
  | .none => d
  | .some s => if s = "" then d else s

/-- `s[:n]` on a Python string (slice by code points). -/
def takeChars (n : Nat) (s : String) : String := String.mk (s.data.take n)

/-- Is `needle` a contiguous sublist of `hay`? -/
def containsSub (needle : List Char) : List Char → Bool
  | [] => needle.isEmpty
  | c :: rest => needle.isPrefixOf (c :: rest) || containsSub needle rest

/-- Python `needle in haystack` substring test. -/
def substrIn (needle hay : String) : Bool := containsSub needle.data hay.data

/-! ### Security and performance constants of `audit.py` -/

def MAX_DETAILS_SIZE : Nat := 50 * 1024
def MAX_STRING_LENGTH : Nat := 10000
def MAX_LEAD_ID_LENGTH : Nat := 100
def MAX_WORKFLOW_LENGTH : Nat := 100
def MAX_EVENT_TYPE_LENGTH : Nat := 50
def QUERY_CACHE_SIZE : Nat := 128
def MAX_MEMORY_EVENTS : Nat := 10000
def RATE_LIMIT_WINDOW : Int := 1
def RATE_LIMIT_BURST : Nat := 200

/-- A raised Python exception of the validation paths. -/
inductive PyErr where
  | valueError (msg : String)
  | typeError (msg : String)
deriving Repr, DecidableEq

deriving instance DecidableEq for Except

/-- The `str(e)` message of an exception. -/
def PyErr.msg : PyErr → String
  | .valueError m => m
  | .typeError m => m

/-! ### Input validation (`AuditLogger._sanitize_string` and friends)

The `isinstance(..., str)` guards of the source raise `TypeError` for
non-string inputs; the embedding types those inputs as `String`, so those
branches are unreachable here and are omitted.  `_sanitize_string`'s
`None`/`str(value)` coercion is likewise the identity on strings. -/

/-- `AuditLogger._sanitize_string`: strip control characters other than tab
and newline, then truncate to `max_length` with a marker. -/
def sanitize_string (value : String) (maxLength : Nat) : String :=
  let filtered := String.mk (value.data.filter (fun c => 32 ≤ c.toNat || c = '\t' || c = '\n'))
  if filtered.length > maxLength then takeChars maxLength filtered ++ "...[truncated]"
  else filtered

/-- One character of the `[A-Za-z0-9\-_]` class. -/
def isLeadIdChar (c : Char) : Bool :=
  ('A' ≤ c && c ≤ 'Z') || ('a' ≤ c && c ≤ 'z') || ('0' ≤ c && c ≤ '9') || c = '-' || c = '_'

/-- `re.match(r'^[A-Za-z0-9\-_]+$', s) is not None`: a full match of the
class, where `$` also matches just before one trailing newline. -/
def reMatchClassPlus (isCl : Char → Bool) (s : String) : Bool :=
  let cs := s.data
  (!cs.isEmpty && cs.all isCl)
    || (cs.getLast? == some '\n' && !cs.dropLast.isEmpty && cs.dropLast.all isCl)

/-- `AuditLogger._validate_lead_id`. -/
def validate_lead_id (lead_id : String) : Except PyErr String :=
  let l := sanitize_string lead_id MAX_LEAD_ID_LENGTH
  if l = "" then .error (.valueError "lead_id cannot be empty")
  else if reMatchClassPlus isLeadIdChar l then .ok l
  else .error (.valueError ("Invalid lead_id format: " ++ l ++
    ". Only alphanumeric, hyphens, and underscores allowed"))

/-- `AuditLogger._validate_workflow`: sanitization and non-emptiness only;
the source performs no character-class check on workflow names. -/
def validate_workflow (workflow : String) : Except PyErr String :=
  let w := sanitize_string workflow MAX_WORKFLOW_LENGTH
  if w = "" then .error (.valueError "workflow cannot be empty")
  else .ok w

/-- `AuditLogger._validate_event_type`. -/
def validate_event_type (event_type : String) : Except PyErr String :=
  let e := sanitize_string event_type MAX_EVENT_TYPE_LENGTH
  if e = "" then .error (.valueError "event_type cannot be empty")
  else .ok e

/-- `AuditLogger._validate_details_size`: serialize with `json.dumps` and
bound the size.  `len` of the (all-ASCII) serialization is its length in
characters.  The `default=str` fallback and the `TypeError` rewrap concern
unserialisable Python objects, which `Json` excludes. -/
def validate_details_size (details : Json) : Except PyErr Unit :=
  match details with
  | .obj _ =>
    let size := (dumps details).length
    if size > MAX_DETAILS_SIZE then
      .error (.valueError ("Event details too large: " ++ toString size ++
        " bytes. Maximum allowed: " ++ toString MAX_DETAILS_SIZE ++ " bytes"))
    else .ok ()
  | _ => .error (.typeError "details must be a dictionary")

/-! ### URL validation (`AuditLogger._validate_url`)

`urllib.parse.urlparse` is embedded for the two attributes the source reads,
`scheme` and `hostname`.  `ipaddress.ip_address` is embedded for dotted-quad
IPv4 literals; IPv6 literal hosts (which require bracketed URLs) are outside
this model, except for the spelled-out loopback forms that the source blocks
by name. -/

/-- Characters allowed in a URL scheme after the leading letter. -/
def isSchemeChar (c : Char) : Bool := c.isAlpha || c.isDigit || c = '+' || c = '-' || c = '.'

/-- Split a list at the first occurrence of a character. -/
def splitFirstChar (ch : Char) : List Char → Option (List Char × List Char)
  | [] => .none
  | c :: cs =>
    if c = ch then .some ([], cs)
    else (splitFirstChar ch cs).map (fun p => (c :: p.1, p.2))

/-- The part of a netloc after the last `@` (strips userinfo):
`netloc.rpartition(chr(64))[2]`. -/
def afterLastAt (cs : List Char) : List Char :=
  (cs.reverse.takeWhile (fun c => c ≠ '@')).reverse

/-- The `scheme` and `hostname` attributes of `urlparse(url)`:
the scheme is lower-cased; the hostname is the netloc with userinfo and
port stripped (brackets removed for IPv6 literals), lower-cased, and `None`
when absent or empty. -/
def urlparse (url : String) : String × Option String :=
  let cs := url.data
  let (scheme, rest) :=
    match splitFirstChar ':' cs with
    | .some (pre, post) =>
      if !pre.isEmpty && (pre.headD ' ').isAlpha && pre.all isSchemeChar
      then (String.mk (pre.map Char.toLower), post)
      else ("", cs)
    | .none => ("", cs)
  let netloc : Option (List Char) :=
    match rest with
    | '/' :: '/' :: r => .some (r.takeWhile (fun c => c ≠ '/' && c ≠ '?' && c ≠ '#'))
    | _ => .none
  let hostname : Option String :=
    match netloc with
    | .none => .none
    | .some nl =>
      let hostinfo := afterLastAt nl
      let host :=
        match splitFirstChar '[' hostinfo with
        | .some (_, bracketed) => bracketed.takeWhile (fun c => c ≠ ']')
        | .none => hostinfo.takeWhile (fun c => c ≠ ':')
      if host.isEmpty then .none else .some (String.mk (host.map Char.toLower))
  (scheme, hostname)

/-- One octet of a dotted-quad IPv4 literal: decimal digits only, at most
three of them, no leading zero, value at most 255. -/
def parseOctet (cs : List Char) : Option Nat :=
  if cs.isEmpty then .none
  else if !cs.all Char.isDigit then .none
  else if cs.length > 3 then .none
  else if cs.length > 1 && cs.headD ' ' = '0' then .none
  else
    let n := cs.foldl (fun a c => a * 10 + (c.toNat - 48)) 0
    if n ≤ 255 then .some n else .none

/-- `str.split(sep)` for a one-character separator. -/
def splitOnChar (sep : Char) : List Char → List (List Char)
  | [] => [[]]
  | c :: rest =>
    if c = sep then [] :: splitOnChar sep rest
    else
      match splitOnChar sep rest with
      | [] => [[c]]
      | p :: ps => (c :: p) :: ps

/-- `ipaddress.ip_address` on a dotted-quad IPv4 literal. -/
def parseIPv4 (s : String) : Option (Nat × Nat × Nat × Nat) :=
  match (splitOnChar '.' s.data).map parseOctet with
  | [.some a, .some b, .some c, .some d] => .some (a, b, c, d)
  | _ => .none

/-- Union of `is_private`, `is_loopback`, `is_link_local` and `is_reserved`
for an IPv4 address, per the `ipaddress` module's registered networks. -/
def ipv4IsBlocked (a b c d : Nat) : Bool :=
  a == 0 || a == 10 || a == 127
    || (a == 169 && b == 254)
    || (a == 172 && 16 ≤ b && b ≤ 31)
    || (a == 192 && b == 0 && c == 0 && (d ≤ 7 || d == 170 || d == 171))
    || (a == 192 && b == 0 && c == 2)
    || (a == 192 && b == 168)
    || (a == 198 && (b == 18 || b == 19))
    || (a == 198 && b == 51 && c == 100)
    || (a == 203 && b == 0 && c == 113)
    || 240 ≤ a

/-- The literal host names blocked outright by `_validate_url`. -/
def localhost_patterns : List String :=
  ["localhost", "127.0.0.1", "0.0.0.0", "::1", "0:0:0:0:0:0:0:1",
   "169.254.169.254", "metadata.google.internal"]

/-- `AuditLogger._validate_url` (with `purpose="webhook"`): length cap,
scheme in `http`/`https`, hostname present, then the SSRF checks.  The
`try`/`except ValueError` of the source re-raises its own `Blocked ...`
errors and maps an unparseable-as-IP hostname to the suspicious-substring
check; the embedding states that net behaviour directly. -/
def validate_url (url : String) : Except PyErr String :=
  if url.length > 2048 then .error (.valueError "webhook URL too long (max 2048 chars)")
  else
    let parsed := urlparse url
    if parsed.1 ≠ "http" ∧ parsed.1 ≠ "https" then
      .error (.valueError ("Invalid webhook URL scheme: " ++ parsed.1 ++
        ". Only http and https are allowed"))
    else
      match parsed.2 with
      | .none => .error (.valueError "Invalid webhook URL: missing hostname")
      | .some hostname =>
        if localhost_patterns.contains hostname then
          .error (.valueError "Blocked webhook URL: localhost/loopback addresses not allowed")
        else
          match parseIPv4 hostname with
          | .some (a, b, c, d) =>
            if ipv4IsBlocked a b c d then
              .error (.valueError "Blocked webhook URL: private/reserved IP addresses not allowed")
            else .ok url
          | .none =>
            if substrIn "metadata" hostname || substrIn "internal" hostname
               || substrIn "local" hostname then
              .error (.valueError "Blocked webhook URL: suspicious hostname pattern")
            else .ok url

/-- `AuditLogger.add_webhook`: validate, then append to the webhook list.
A raised validation error propagates and leaves the list unchanged. -/
def add_webhook (webhooks : List String) (webhook_url : String) : Except PyErr (List String) :=
  match validate_url webhook_url with
  | .error e => .error e
  | .ok validated => .ok (webhooks ++ [validated])

/-! ### Logger state

The mutable attributes of an `AuditLogger` instance that the embedded
operations read or write.  `alertsSent` records each alert broadcast to the
registered handlers (the source loops over `alert_handlers`, isolating
handler exceptions, so one broadcast reaches every handler);
`webhookDeliveries` records each event handed to the webhook sender thread.
Rotation is triggered by the on-disk file size; `rotationNeeded` stands for
`_check_rotation_needed()` and `rotate_log` models the state-visible effects
of `_rotate_log` (the buffer is flushed to disk and the query cache is
cleared; the compressed archive lives on disk, outside the state). -/
structure SecurityEvent where
  timestamp : String
  type : String
  details : Json
deriving Repr, DecidableEq

structure LoggerState where
  buckets : String → List Int
  blockedEventsCount : Nat
  securityLogEnabled : Bool
  securityEvents : List SecurityEvent
  writeBuffer : List Json
  errorCount : Nat
  errorThreshold : Nat
  lastAlertTime : Option Int
  alertCooldown : Int
  alertHandlers : Nat
  alertsSent : List String
  enableIntegrity : Bool
  secretKey : String
  anonymizePii : Bool
  webhooks : List String
  webhookDeliveries : List Json
  rotationNeeded : Bool
  queryCacheEnabled : Bool
  queryCache : List (String × List Json × Int)

/-- The attribute defaults set by `AuditLogger.__init__` (no alert handlers
configured yet, integrity enabled, compliance mode off). -/
def initState (secretKey : String) : LoggerState where
  buckets := fun _ => []
  blockedEventsCount := 0
  securityLogEnabled := true
  securityEvents := []
  writeBuffer := []
  errorCount := 0
  errorThreshold := 10
  lastAlertTime := .none
  alertCooldown := 300
  alertHandlers := 0
  alertsSent := []
  enableIntegrity := true
  secretKey := secretKey
  anonymizePii := false
  webhooks := []
  webhookDeliveries := []
  rotationNeeded := false
  queryCacheEnabled := true
  queryCache := []

/-- The library crypto primitives used by the logger, abstracted:
`hmac.new(key, data, sha256).hexdigest()` and `sha256(data).hexdigest()`. -/
structure Crypto where
  hmacSha256Hex : String → String → String
  sha256Hex : String → String

/-- `AuditLogger._calculate_signature`. -/
def calculate_signature (crypto : Crypto) (secretKey data : String) : String :=
  crypto.hmacSha256Hex secretKey data

/-- `AuditLogger._log_security_event`: append to the in-memory list, keep
only the last 1000 entries (the side log write is a file effect). -/
def log_security_event (enabled : Bool) (events : List SecurityEvent)
    (ts ty : String) (details : Json) : List SecurityEvent :=
  if !enabled then events
  else
    let events := events ++ [⟨ts, ty, details⟩]
    if events.length > 1000 then events.drop 1 else events

/-- Prune of `_check_rate_limit`: pop entries older than the window. -/
def pruneWindow (now : Int) (bucket : List Int) : List Int :=
  bucket.dropWhile (fun t => t < now - RATE_LIMIT_WINDOW)

/-- `AuditLogger._check_rate_limit`: prune the window for the key; if it
already holds at least the burst capacity, count the block, record a
`rate_limit_exceeded` security event and refuse; otherwise admit and record
the current timestamp. -/
def check_rate_limit (st : LoggerState) (key : String) (now : Int) (ts : String) :
    Bool × LoggerState :=
  let bucket := pruneWindow now (st.buckets key)
  if bucket.length ≥ RATE_LIMIT_BURST then
    (false,
     { st with
       buckets := fun k => if k = key then bucket else st.buckets k
       blockedEventsCount := st.blockedEventsCount + 1
       securityEvents := log_security_event st.securityLogEnabled st.securityEvents ts
         "rate_limit_exceeded"
         (.obj [("key", .str key), ("count", .num (bucket.length : Int)),
                ("limit", .num (RATE_LIMIT_BURST : Int))]) })
  else
    (true, { st with buckets := fun k => if k = key then bucket ++ [now] else st.buckets k })

/-- `AuditLogger.get_security_events`: slice the most recent `last_n`
entries of the in-memory buffer first, then filter by type. -/
def get_security_events (events : List SecurityEvent) (event_type : Option String)
    (last_n : Int) : List SecurityEvent :=
  let sliced :=
    if (0 : Int) < last_n then events.drop (events.length - (min last_n (events.length : Int)).toNat)
    else events.drop (min (-last_n) (events.length : Int)).toNat
  match event_type with
  | .none => sliced
  | .some t => if t = "" then sliced else sliced.filter (fun e => e.type == t)

/-- Python `str()` of a value, as interpolated by the f-string of
`_trigger_alerts`: scalars as Python prints them; containers via `repr`
(modelled with single-quoted strings under minimal escaping, which is exact
for the quote-and-control-free strings the logger produces). -/
def pyReprEscape (s : String) : String :=
  String.join (s.data.map (fun c =>
    if c = '\\' then "\\\\"
    else if c.toNat = 39 then "\\'"
    else if c = '\n' then "\\n"
    else if c = '\r' then "\\r"
    else if c = '\t' then "\\t"
    else String.mk [c]))

mutual
def pyRepr : Json → String
  | .null => "None"
  | .bool true => "True"
  | .bool false => "False"
  | .num n => toString n
  | .str s => String.mk [Char.ofNat 39] ++ pyReprEscape s ++ String.mk [Char.ofNat 39]
  | .arr xs => "[" ++ pyReprElems xs ++ "]"
  | .obj kvs => "\x7b" ++ pyReprMembers kvs ++ "\x7d"
termination_by structural j => j

def pyReprElems : List Json → String
  | [] => ""
  | [x] => pyRepr x
  | x :: y :: xs => pyRepr x ++ ", " ++ pyReprElems (y :: xs)
termination_by structural l => l

def pyReprMembers : List (String × Json) → String
  | [] => ""
  | [(k, v)] => String.mk [Char.ofNat 39] ++ pyReprEscape k ++ String.mk [Char.ofNat 39] ++ ": " ++ pyRepr v
  | (k, v) :: m :: kvs =>
    String.mk [Char.ofNat 39] ++ pyReprEscape k ++ String.mk [Char.ofNat 39] ++ ": " ++ pyRepr v ++ ", "
      ++ pyReprMembers (m :: kvs)
termination_by structural l => l
end

/-- `str(x)` on a value (strings print bare, containers via `repr`). -/
def pyStr : Json → String
  | .str s => s
  | j => pyRepr j

/-- `dict.get` as used on `event['details']` (always an object here). -/
def pyDictGet (j : Json) (k : String) (d : Json) : Json :=
  match j with
  | .obj _ => jsonGetD j k d
  | _ => d

/-- The alert f-string of `_trigger_alerts`.  Note that the source writes
literal backslash-n sequences (`\\n` inside a regular f-string), not
newlines, and that `event.get('workflow', 'N/A')` finds the stored value
(possibly `None`) because the key is always present. -/
def alertMessage (errorCount : Nat) (event : Json) : String :=
  "⚠️ AUDIT ALERT: " ++ toString errorCount ++ " errors detected\\n" ++
  "Latest: " ++ pyStr (pyDictGet (jsonGetD event "details" .null) "error_message" (.str "Unknown")) ++ "\\n" ++
  "Workflow: " ++ pyStr (jsonGetD event "workflow" (.str "N/A")) ++ "\\n" ++
  "Time: " ++ pyStr (jsonGetD event "timestamp" .null)

/-- `AuditLogger._trigger_alerts`: on an `error`-typed event bump the error
counter; alert when the counter has reached the threshold, the cooldown
test passes (`if self.last_alert_time:` is falsy for `None` and for `0.0`)
and the handler list is non-empty; alerting resets the counter and stamps
the alert time. -/
def trigger_alerts (st : LoggerState) (event : Json) (now : Int) : LoggerState :=
  if jsonGetD event "event_type" .null = .str "error" then
    let ec := st.errorCount + 1
    let shouldAlert := decide (ec ≥ st.errorThreshold)
    let shouldAlert :=
      match st.lastAlertTime with
      | .some t => if t ≠ 0 then shouldAlert && decide (now - t ≥ st.alertCooldown) else shouldAlert
      | .none => shouldAlert
    if shouldAlert && st.alertHandlers ≠ 0 then
      { st with
        errorCount := 0
        lastAlertTime := .some now
        alertsSent := st.alertsSent ++ [alertMessage ec event] }
    else { st with errorCount := ec }
  else st

/-- `AuditLogger._send_to_webhooks`: nothing to do without webhooks,
otherwise hand the event to the sender thread. -/
def send_to_webhooks (st : LoggerState) (event : Json) : LoggerState :=
  if st.webhooks.isEmpty then st
  else { st with webhookDeliveries := st.webhookDeliveries ++ [event] }

/-- The PII fields redacted by `AuditLogger.anonymize_data`. -/
def pii_fields : List String := ["email", "phone", "name", "address", "ssn"]

/-- `AuditLogger.anonymize_data`: replace each present PII field of the
(copied) details map by a redaction marker derived from its hash. -/
def anonymize_data (crypto : Crypto) (anonymizePii : Bool) (data : Json) : Json :=
  if !anonymizePii then data
  else
    match data with
    | .obj kvs =>
      .obj (kvs.map (fun kv =>
        if pii_fields.contains kv.1 then
          (kv.1, .str ("[REDACTED_" ++ takeChars 16 (crypto.sha256Hex (pyStr kv.2)) ++ "]"))
        else kv))
    | j => j

/-- Visible state effects of `AuditLogger._rotate_log`: the write buffer is
flushed (to the file, which is outside the state) and the query cache is
cleared; the fresh active file no longer needs rotation. -/
def rotate_log (st : LoggerState) : LoggerState :=
  { st with writeBuffer := [], queryCache := [], rotationNeeded := false }

/-- The composite rate-limit key `f"{workflow or 'global'}:{lead_id or 'none'}"`. -/
def rateLimitKey (workflow lead_id : Option String) : String :=
  pyOrDefault workflow "global" ++ ":" ++ pyOrDefault lead_id "none"

/-- The `try` block of `log_event` that validates all inputs.  The source
rebinds each argument to its validated form as it goes, so on failure the
security-event details see the values validated so far; the error therefore
carries the `event_type` and `lead_id` values current at the raise. -/
def validateInputs (event_type : String) (details : Json) (actor : String)
    (lead_id workflow : Option String) :
    Except (PyErr × String × Option String) (String × String × Option String × Option String) :=
  match validate_event_type event_type with
  | .error e => .error (e, event_type, lead_id)
  | .ok et =>
    let ac := sanitize_string actor 200
    match lead_id with
    | .some l =>
      match validate_lead_id l with
      | .error e => .error (e, et, lead_id)
      | .ok li =>
        match workflow with
        | .some w =>
          match validate_workflow w with
          | .error e => .error (e, et, .some li)
          | .ok wf =>
            match validate_details_size details with
            | .error e => .error (e, et, .some li)
            | .ok _ => .ok (et, ac, .some li, .some wf)
        | .none =>
          match validate_details_size details with
          | .error e => .error (e, et, .some li)
          | .ok _ => .ok (et, ac, .some li, .none)
    | .none =>
      match workflow with
      | .some w =>
        match validate_workflow w with
        | .error e => .error (e, et, .none)
        | .ok wf =>
          match validate_details_size details with
          | .error e => .error (e, et, .none)
          | .ok _ => .ok (et, ac, .none, .some wf)
      | .none =>
        match validate_details_size details with
        | .error e => .error (e, et, .none)
        | .ok _ => .ok (et, ac, .none, .none)

/-- The `validation_error` security-event details recorded by `log_event`:
`str(event_type)[:50]`, `str(e)[:200]`, and `str(lead_id)[:50] if lead_id
else None` (so `None` and the empty string both record as null). -/
def validationErrorDetails (event_type : String) (e : PyErr) (lead_id : Option String) : Json :=
  .obj [("event_type", .str (takeChars 50 event_type)),
        ("error", .str (takeChars 200 e.msg)),
        ("lead_id",
          match lead_id with
          | .some l => if l = "" then .null else .str (takeChars 50 l)
          | .none => .null)]

/-- The event dict built by `log_event`, in insertion order. -/
def buildEvent (ts event_type actor : String) (lead_id workflow : Option String)
    (details : Json) : Json :=
  .obj [("timestamp", .str ts),
        ("event_type", .str event_type),
        ("actor", .str actor),
        ("lead_id", match lead_id with | .some l => .str l | .none => .null),
        ("workflow", match workflow with | .some w => .str w | .none => .null),
        ("details", details)]

/-- Integrity signing of `log_event`: sign the canonical (key-sorted) dump
of the event, then store the signature as a further member. -/
def signEvent (crypto : Crypto) (secretKey : String) (event : Json) : Json :=
  match event with
  | .obj kvs =>
    .obj (kvs ++ [("signature", .str (calculate_signature crypto secretKey (dumpsSorted event)))])
  | j => j

/-- `AuditLogger.log_event`.  Control flow as in the source: rate limiting
first (a rejected event is dropped silently), then input validation (a
failure records a `validation_error` security event and re-raises), then
rotation check, anonymization, event construction, optional signing,
enqueue onto the write buffer, alert evaluation and webhook dispatch.
`now` is the `time.time()` clock reading and `ts` the ISO timestamp string
the event is given. -/
def log_event (crypto : Crypto) (st : LoggerState) (now : Int) (ts : String)
    (event_type : String) (details : Json) (actor : String)
    (lead_id workflow : Option String) : Except PyErr Unit × LoggerState :=
  let key := rateLimitKey workflow lead_id
  match check_rate_limit st key now ts with
  | (false, st) => (.ok (), st)
  | (true, st) =>
    match validateInputs event_type details actor lead_id workflow with
    | .error (e, etCur, liCur) =>
      let secEvents := log_security_event st.securityLogEnabled st.securityEvents ts
        "validation_error" (validationErrorDetails etCur e liCur)
      (.error e, { st with securityEvents := secEvents })
    | .ok (et, ac, li, wf) =>
      let st := if st.rotationNeeded then rotate_log st else st
      let details := if st.anonymizePii then anonymize_data crypto st.anonymizePii details else details
      let event := buildEvent ts et ac li wf details
      let event := if st.enableIntegrity then signEvent crypto st.secretKey event else event
      let st := { st with writeBuffer := st.writeBuffer ++ [event] }
      let st := trigger_alerts st event now
      let st := send_to_webhooks st event
      (.ok (), st)

/-! ### Query engine and cache (`query_events`)

The log file is modelled as the list of its lines, each either a parsed
event or `none` for a line `json.loads` rejects (those are skipped).
`datetime` formatting/parsing is abstracted as a pair of functions: `iso`
embeds `datetime.isoformat` (used in cache keys) and `parseTs` embeds
`datetime.fromisoformat` on the stored timestamp string (used by the time
filters; a malformed stored timestamp aborts the scan in the source via the
outer `except`, a path not modelled). -/

structure TimeCodec where
  iso : Int → String
  parseTs : String → Int

/-- The filter parameters of `query_events`. -/
structure QueryFilter where
  event_type : Option String
  lead_id : Option String
  workflow : Option String
  start_time : Option Int
  end_time : Option Int
  limit : Nat

/-- `AuditLogger._get_cache_key`: the filter tuple joined with pipes. -/
def get_cache_key (tc : TimeCodec) (f : QueryFilter) : String :=
  String.intercalate "|"
    [f.event_type.getD "", f.lead_id.getD "", f.workflow.getD "",
     (f.start_time.map tc.iso).getD "", (f.end_time.map tc.iso).getD "",
     toString f.limit]

/-- The query cache: key, cached results, insertion time. -/
abbrev QueryCache := List (String × List Json × Int)

/-- Find a cache entry by key. -/
def cacheLookup (cache : QueryCache) (key : String) : Option (List Json × Int) :=
  (cache.find? (fun e => e.1 == key)).map (fun e => e.2)

/-- `AuditLogger._get_from_cache`: a hit younger than 30 s is returned; an
expired entry is deleted. -/
def get_from_cache (cache : QueryCache) (key : String) (now : Int) :
    Option (List Json) × QueryCache :=
  match cacheLookup cache key with
  | .some (results, inserted) =>
    if now - inserted < 30 then (.some results, cache)
    else (.none, cache.filter (fun e => e.1 != key))
  | .none => (.none, cache)

/-- `AuditLogger._put_in_cache`: evict the insertion-oldest entry at
capacity (first-listed among ties, as Python `min` returns), then store. -/
def put_in_cache (cache : QueryCache) (key : String) (results : List Json) (now : Int) :
    QueryCache :=
  let cache :=
    if cache.length ≥ QUERY_CACHE_SIZE then
      match cache with
      | [] => []
      | e :: es =>
        let oldest := es.foldl (fun best e => if e.2.2 < best.2.2 then e else best) e
        cache.filter (fun e => e.1 != oldest.1)
    else cache
  if (cacheLookup cache key).isSome then
    cache.map (fun e => if e.1 == key then (key, results, now) else e)
  else cache ++ [(key, results, now)]

/-- The stored timestamp string of an event (`event["timestamp"]`). -/
def eventTimestamp (ev : Json) : String :=
  match jsonGet ev "timestamp" with
  | .some (.str s) => s
  | _ => ""

/-- One string filter of the scan: `if param and event.get(field) != param:
continue` (a `None` or empty parameter filters nothing). -/
def fieldFilterOk (ev : Json) (field : String) (param : Option String) : Bool :=
  match param with
  | .none => true
  | .some s => if s = "" then true else jsonGetD ev field .null == .str s

/-- The conjunction of all filters of `query_events` on one event. -/
def eventPassesFilters (tc : TimeCodec) (f : QueryFilter) (ev : Json) : Bool :=
  fieldFilterOk ev "event_type" f.event_type
    && fieldFilterOk ev "lead_id" f.lead_id
    && fieldFilterOk ev "workflow" f.workflow
    && (match f.start_time with
        | .none => true
        | .some t => !(tc.parseTs (eventTimestamp ev) < t))
    && (match f.end_time with
        | .none => true
        | .some t => !(tc.parseTs (eventTimestamp ev) > t))

/-- The scan loop of `query_events`: stop at the limit (checked at the top
of each iteration), skip undecodable lines, collect matching events. -/
def scanEvents (tc : TimeCodec) (f : QueryFilter) :
    List (Option Json) → List Json → List Json
  | [], acc => acc
  | line :: rest, acc =>
    if acc.length ≥ f.limit then acc
    else
      match line with
      | .none => scanEvents tc f rest acc
      | .some ev =>
        if eventPassesFilters tc f ev then scanEvents tc f rest (acc ++ [ev])
        else scanEvents tc f rest acc

/-- `AuditLogger.query_events`: consult the cache when enabled, else scan;
only a non-empty result set is stored back (`if self.query_cache_enabled
and results:`).  Returns the results and the updated cache. -/
def query_events (tc : TimeCodec) (cacheEnabled : Bool) (cache : QueryCache)
    (lines : List (Option Json)) (f : QueryFilter) (now : Int) :
    List Json × QueryCache :=
  if cacheEnabled then
    let key := get_cache_key tc f
    match get_from_cache cache key now with
    | (.some results, cache) => (results, cache)
    | (.none, cache) =>
      let results := scanEvents tc f lines []
      if !results.isEmpty then (results, put_in_cache cache key results now)
      else (results, cache)
  else (scanEvents tc f lines [], cache)

/-! ### Statistics (`get_statistics`) -/

/-- The accumulator of `get_statistics`.  `leads` models the Python set of
distinct `lead_id` values in insertion order; `event_types` the per-type
counter dict (its keys are whatever values the events carry). -/
structure Stats where
  total_events : Nat
  event_types : List (Json × Nat)
  leads : List Json
  errors : Nat
deriving Repr, DecidableEq

def initStats : Stats := ⟨0, [], [], 0⟩

/-- `stats["event_types"][et] = stats["event_types"].get(et, 0) + 1`. -/
def bumpCount (m : List (Json × Nat)) (k : Json) : List (Json × Nat) :=
  if (m.find? (fun e => e.1 == k)).isSome then
    m.map (fun e => if e.1 == k then (e.1, e.2 + 1) else e)
  else m ++ [(k, 1)]

/-- Python `set.add` on the insertion-ordered model. -/
def setAdd (s : List Json) (x : Json) : List Json :=
  if s.contains x then s else s ++ [x]

/-- `if workflow and event.get("workflow") != workflow: continue`. -/
def workflowMismatch (workflow : Option String) (ev : Json) : Bool :=
  match workflow with
  | .none => false
  | .some w => if w = "" then false else !(jsonGetD ev "workflow" .null == .str w)

/-- The per-line body of the `get_statistics` loop. -/
def statsProcessLine (workflow : Option String) (s : Stats) : Option Json → Stats
  | .none => s
  | .some ev =>
    if workflowMismatch workflow ev then s
    else
      let s := { s with total_events := s.total_events + 1 }
      let et := jsonGetD ev "event_type" (.str "unknown")
      let s := { s with event_types := bumpCount s.event_types et }
      let s :=
        if pyTruthy (jsonGetD ev "lead_id" .null) then
          { s with leads := setAdd s.leads (jsonGetD ev "lead_id" .null) }
        else s
      if et = .str "error" then { s with errors := s.errors + 1 } else s

/-- The scan loop of `get_statistics`: before each line, stop once the
distinct-lead set has grown past `MAX_MEMORY_EVENTS`. -/
def statsLoop (workflow : Option String) : List (Option Json) → Stats → Stats
  | [], s => s
  | line :: rest, s =>
    if s.leads.length > MAX_MEMORY_EVENTS then s
    else statsLoop workflow rest (statsProcessLine workflow s line)

/-- `AuditLogger.get_statistics` over the lines of the log file; the
returned `leads_processed` figure is `(· .leads).length` of the result. -/
def get_statistics (lines : List (Option Json)) (workflow : Option String) : Stats :=
  statsLoop workflow lines initStats

/-! ### Concrete instances used by witnesses and counterexamples -/

/-- A concrete stand-in for the hmac/sha256 primitives. -/
def constCrypto : Crypto := ⟨fun k d => k ++ ":" ++ d, fun s => s⟩

/-- A concrete stand-in for the datetime codec. -/
def unitTimeCodec : TimeCodec := ⟨fun _ => "", fun _ => 0⟩

/-- A 10000-element array makes the details serialization 60007 characters
long, past the 51200-character limit. -/
def bigDetails : Json := .obj [("k", .arr (List.replicate 10000 .null))]

/-- A logger state whose every rate window is already at burst capacity. -/
def fullWindowState : LoggerState :=
  { initState "sec" with buckets := fun _ => List.replicate RATE_LIMIT_BURST 0 }

/-- A log line carrying a numeric lead identifier distinct per index. -/
def mkLeadLine (i : Nat) : Option Json := some (.obj [("lead_id", .num ((i : Int) + 1))])

/-- A concrete `error`-typed event as built by `log_event`. -/
def errorEvent : Json :=
  .obj [("timestamp", .str "t"), ("event_type", .str "error"), ("actor", .str "system"),
        ("lead_id", .null), ("workflow", .null),
        ("details", .obj [("error_message", .str "boom")])]

/-- A concrete query-filter tuple that matches no event of type `"a"`. -/
def sampleFilter : QueryFilter := ⟨.some "x", .none, .none, .none, .none, 100⟩

/-! ### Helper lemmas -/

theorem check_rate_limit_admits (st : LoggerState) (key : String) (now : Int) (ts : String)
    (h : (pruneWindow now (st.buckets key)).length < RATE_LIMIT_BURST) :
    check_rate_limit st key now ts =
      (true, { st with buckets := fun k =>
        if k = key then pruneWindow now (st.buckets key) ++ [now] else st.buckets k }) := by
  unfold check_rate_limit
  rw [if_neg (by omega)]

theorem check_rate_limit_blocks (st : LoggerState) (key : String) (now : Int) (ts : String)
    (h : (pruneWindow now (st.buckets key)).length ≥ RATE_LIMIT_BURST) :
    check_rate_limit st key now ts =
      (false, { st with
        buckets := fun k => if k = key then pruneWindow now (st.buckets key) else st.buckets k
        blockedEventsCount := st.blockedEventsCount + 1
        securityEvents := log_security_event st.securityLogEnabled st.securityEvents ts
          "rate_limit_exceeded"
          (.obj [("key", .str key), ("count", .num ((pruneWindow now (st.buckets key)).length : Int)),
                 ("limit", .num (RATE_LIMIT_BURST : Int))]) }) := by
  unfold check_rate_limit
  rw [if_pos h]

theorem log_security_event_getLast (events : List SecurityEvent) (ts ty : String) (d : Json) :
    (log_security_event true events ts ty d).getLast? = some ⟨ts, ty, d⟩ := by
  unfold log_security_event
  simp only [Bool.not_true, Bool.false_eq_true, if_false]
  split
  next h =>
    have hne : events ≠ [] := by
      intro he
      subst he
      simp at h
    rw [List.drop_append_of_le_length (by
      cases events with
      | nil => exact absurd rfl hne
      | cons a l => simp)]
    exact List.getLast?_concat _
  next => exact List.getLast?_concat _

theorem trigger_alerts_buckets (st : LoggerState) (ev : Json) (now : Int) :
    (trigger_alerts st ev now).buckets = st.buckets := by
  unfold trigger_alerts
  dsimp only
  repeat' split
  all_goals rfl

theorem trigger_alerts_writeBuffer (st : LoggerState) (ev : Json) (now : Int) :
    (trigger_alerts st ev now).writeBuffer = st.writeBuffer := by
  unfold trigger_alerts
  dsimp only
  repeat' split
  all_goals rfl

theorem send_to_webhooks_buckets (st : LoggerState) (ev : Json) :
    (send_to_webhooks st ev).buckets = st.buckets := by
  unfold send_to_webhooks
  split <;> rfl

theorem send_to_webhooks_writeBuffer (st : LoggerState) (ev : Json) :
    (send_to_webhooks st ev).writeBuffer = st.writeBuffer := by
  unfold send_to_webhooks
  split <;> rfl

theorem validate_details_size_ok_le (details : Json) (u : Unit)
    (h : validate_details_size details = .ok u) :
    (dumps details).length ≤ MAX_DETAILS_SIZE := by
  unfold validate_details_size at h
  match details, h with
  | .obj kvs, h =>
    by_cases hgt : (dumps (Json.obj kvs)).length > MAX_DETAILS_SIZE
    · rw [if_pos hgt] at h
      cases h
    · omega

/-- When the serialized details exceed the limit, the validation chain of
`log_event` necessarily raises. -/
theorem validateInputs_oversized_error (event_type : String) (details : Json) (actor : String)
    (lead_id workflow : Option String)
    (hsize : (dumps details).length > MAX_DETAILS_SIZE) :
    ∃ err, validateInputs event_type details actor lead_id workflow = .error err := by
  have hd : ∀ u : Unit, validate_details_size details ≠ .ok u := by
    intro u hu
    exact absurd (validate_details_size_ok_le details u hu) (by omega)
  unfold validateInputs
  repeat' split
  all_goals first
    | exact ⟨_, rfl⟩
    | (exact absurd (by assumption) (hd _))

theorem validate_event_type_error_form (s : String) (e : PyErr)
    (h : validate_event_type s = .error e) : ∃ m, e = .valueError m := by
  unfold validate_event_type at h
  dsimp only at h
  split at h
  · cases h
    exact ⟨_, rfl⟩
  · cases h

theorem validate_lead_id_error_form (s : String) (e : PyErr)
    (h : validate_lead_id s = .error e) : ∃ m, e = .valueError m := by
  unfold validate_lead_id at h
  dsimp only at h
  split at h
  · cases h
    exact ⟨_, rfl⟩
  · split at h
    · cases h
    · cases h
      exact ⟨_, rfl⟩

theorem validate_workflow_error_form (s : String) (e : PyErr)
    (h : validate_workflow s = .error e) : ∃ m, e = .valueError m := by
  unfold validate_workflow at h
  dsimp only at h
  split at h
  · cases h
    exact ⟨_, rfl⟩
  · cases h

theorem validate_details_size_obj_error_form (kvs : List (String × Json)) (e : PyErr)
    (h : validate_details_size (Json.obj kvs) = .error e) : ∃ m, e = .valueError m := by
  unfold validate_details_size at h
  dsimp only at h
  split at h
  · cases h
    exact ⟨_, rfl⟩
  · cases h

/-- With a details dictionary whose serialization is oversized, the
validation chain of `log_event` raises a `ValueError` (every reachable
failure of the chain on string-typed inputs and dict-typed details is a
`ValueError`, and the size check itself cannot pass). -/
theorem validateInputs_oversized_valueError (event_type : String) (kvs : List (String × Json))
    (actor : String) (lead_id workflow : Option String)
    (hsize : (dumps (Json.obj kvs)).length > MAX_DETAILS_SIZE) :
    ∃ m etC liC, validateInputs event_type (Json.obj kvs) actor lead_id workflow =
      .error (.valueError m, etC, liC) := by
  have hd : ∀ u : Unit, validate_details_size (Json.obj kvs) ≠ .ok u := by
    intro u hu
    exact absurd (validate_details_size_ok_le _ u hu) (by omega)
  unfold validateInputs
  repeat' split
  all_goals first
    | exact absurd (by assumption) (hd _)
    | (obtain ⟨m, rfl⟩ := validate_event_type_error_form _ _ (by assumption)
       exact ⟨m, _, _, rfl⟩)
    | (obtain ⟨m, rfl⟩ := validate_lead_id_error_form _ _ (by assumption)
       exact ⟨m, _, _, rfl⟩)
    | (obtain ⟨m, rfl⟩ := validate_workflow_error_form _ _ (by assumption)
       exact ⟨m, _, _, rfl⟩)
    | (obtain ⟨m, rfl⟩ := validate_details_size_obj_error_form _ _ (by assumption)
       exact ⟨m, _, _, rfl⟩)

/-- The state and result of `log_event` on the admitted-then-invalid path:
the admission timestamp is recorded, a `validation_error` security event is
appended, the error is re-raised, and nothing is enqueued. -/
theorem log_event_validation_error (crypto : Crypto) (st : LoggerState) (now : Int) (ts : String)
    (event_type : String) (details : Json) (actor : String)
    (lead_id workflow : Option String) (e : PyErr) (etC : String) (liC : Option String)
    (hadm : (pruneWindow now (st.buckets (rateLimitKey workflow lead_id))).length < RATE_LIMIT_BURST)
    (herr : validateInputs event_type details actor lead_id workflow = .error (e, etC, liC)) :
    log_event crypto st now ts event_type details actor lead_id workflow =
      (Except.error e,
       { st with
         buckets := fun k =>
           if k = rateLimitKey workflow lead_id
           then pruneWindow now (st.buckets (rateLimitKey workflow lead_id)) ++ [now]
           else st.buckets k
         securityEvents := log_security_event st.securityLogEnabled st.securityEvents ts
           "validation_error" (validationErrorDetails etC e liC) }) := by
  unfold log_event
  dsimp only
  rw [check_rate_limit_admits st _ now ts hadm]
  dsimp only
  rw [herr]

theorem rotate_log_buckets (st : LoggerState) : (rotate_log st).buckets = st.buckets := rfl

/-- In the admitted case, whatever validation then does, the final state of
`log_event` carries the admission timestamp in the window of the key. -/
theorem log_event_admitted_buckets (crypto : Crypto) (st : LoggerState) (now : Int) (ts : String)
    (event_type : String) (details : Json) (actor : String) (lead_id workflow : Option String)
    (hadm : (pruneWindow now (st.buckets (rateLimitKey workflow lead_id))).length
      < RATE_LIMIT_BURST) :
    (log_event crypto st now ts event_type details actor lead_id workflow).2.buckets
        (rateLimitKey workflow lead_id) =
      pruneWindow now (st.buckets (rateLimitKey workflow lead_id)) ++ [now] := by
  unfold log_event
  dsimp only
  rw [check_rate_limit_admits st _ now ts hadm]
  dsimp only
  cases hv : validateInputs event_type details actor lead_id workflow with
  | error err =>
    obtain ⟨e, etC, liC⟩ := err
    simp
  | ok v =>
    obtain ⟨et, ac, li, wf⟩ := v
    dsimp only
    rw [send_to_webhooks_buckets, trigger_alerts_buckets]
    dsimp only
    split <;> simp [rotate_log]

/-- A lemma for C2: oversized dict-shaped details make `log_event` raise a
`ValueError`, leave the write buffer unchanged, and record a
`validation_error` security event (when the window admits the call and
security logging is on). -/
theorem log_event_oversized_core (crypto : Crypto) (st : LoggerState) (now : Int) (ts : String)
    (event_type : String) (kvs : List (String × Json)) (actor : String)
    (lead_id workflow : Option String)
    (hsec : st.securityLogEnabled = true)
    (hadm : (pruneWindow now (st.buckets (rateLimitKey workflow lead_id))).length
      < RATE_LIMIT_BURST)
    (hsize : (dumps (Json.obj kvs)).length > MAX_DETAILS_SIZE) :
    ∃ m st2,
      log_event crypto st now ts event_type (Json.obj kvs) actor lead_id workflow =
        (Except.error (PyErr.valueError m), st2) ∧
      st2.writeBuffer = st.writeBuffer ∧
      ∃ d, st2.securityEvents.getLast? = some ⟨ts, "validation_error", d⟩ := by
  obtain ⟨m, etC, liC, herr⟩ :=
    validateInputs_oversized_valueError event_type kvs actor lead_id workflow hsize
  rw [log_event_validation_error crypto st now ts event_type (Json.obj kvs) actor lead_id
    workflow (.valueError m) etC liC hadm herr]
  refine ⟨m, _, rfl, rfl, ?_⟩
  dsimp only
  rw [hsec]
  exact ⟨_, log_security_event_getLast _ _ _ _⟩

/-- C2.  For every details dictionary whose `json.dumps` serialization
exceeds `MAX_DETAILS_SIZE` (50 KiB), and any state whose rate window admits
the call (with security logging on, its default), `log_event` raises a
`ValueError`, records a `validation_error` security event, and enqueues
nothing onto the write buffer. -/
theorem log_event_oversized_details_rejected (crypto : Crypto) (st : LoggerState) (now : Int)
    (ts : String) (event_type : String) (kvs : List (String × Json)) (actor : String)
    (lead_id workflow : Option String)
    (hsec : st.securityLogEnabled = true)
    (hadm : (pruneWindow now (st.buckets (rateLimitKey workflow lead_id))).length
      < RATE_LIMIT_BURST)
    (hsize : (dumps (Json.obj kvs)).length > MAX_DETAILS_SIZE) :
    ∃ m st2,
      log_event crypto st now ts event_type (Json.obj kvs) actor lead_id workflow =
        (Except.error (PyErr.valueError m), st2) ∧
      st2.writeBuffer = st.writeBuffer ∧
      ∃ d, st2.securityEvents.getLast? = some ⟨ts, "validation_error", d⟩ :=
  log_event_oversized_core crypto st now ts event_type kvs actor lead_id workflow
    hsec hadm hsize

theorem dumpsElems_replicate_null_length :
    ∀ n : Nat, (dumpsElems (List.replicate (n + 1) Json.null)).length = 6 * n + 4
  | 0 => rfl
  | n + 1 => by
    have ih := dumpsElems_replicate_null_length n
    rw [List.replicate_succ, List.replicate_succ]
    rw [show dumpsElems (Json.null :: Json.null :: List.replicate n Json.null) =
      dumps Json.null ++ ", " ++ dumpsElems (Json.null :: List.replicate n Json.null) from rfl]
    rw [← List.replicate_succ] at *
    simp only [String.length_append, ih]
    have h4 : (dumps Json.null).length = 4 := rfl
    have h2 : (", " : String).length = 2 := rfl
    omega

theorem bigDetails_oversized : (dumps bigDetails).length > MAX_DETAILS_SIZE := by
  have h1 : (dumpsElems (List.replicate 10000 Json.null)).length = 6 * 9999 + 4 :=
    dumpsElems_replicate_null_length 9999
  have h2 : dumps bigDetails =
      "\x7b" ++ ("\"k\"" ++ ": " ++ ("[" ++ dumpsElems (List.replicate 10000 Json.null) ++ "]")) ++ "\x7d" := rfl
  rw [gt_iff_lt, h2]
  simp only [String.length_append, h1]
  decide

/-- Witness for C2 at a concrete oversized details dictionary. -/
theorem log_event_oversized_details_rejected_witness :
    ∃ m st2,
      log_event constCrypto (initState "sec") 5 "t0" "lead_ingested"
          (Json.obj [("k", .arr (List.replicate 10000 .null))]) "system" .none .none =
        (Except.error (PyErr.valueError m), st2) ∧
      st2.writeBuffer = (initState "sec").writeBuffer ∧
      ∃ d, st2.securityEvents.getLast? = some ⟨"t0", "validation_error", d⟩ :=
  log_event_oversized_details_rejected constCrypto (initState "sec") 5 "t0" "lead_ingested"
    [("k", .arr (List.replicate 10000 .null))] "system" .none .none
    rfl (by decide) bigDetails_oversized

/-- C3 counterexample: with an invalid `lead_id`, `log_event` raises the
validation error, yet the rate window for the composite key has gained the
admission timestamp — the rate limiter was consulted (and mutated) before
validation, so the claimed validation-first ordering is false. -/
theorem log_event_invalid_input_mutates_rate_window :
    ((log_event constCrypto (initState "sec") 5 "t0" "error" (Json.obj []) "system"
        (.some "bad!id") .none).2.buckets "global:bad!id" = [5]) ∧
    ((log_event constCrypto (initState "sec") 5 "t0" "error" (Json.obj []) "system"
        (.some "bad!id") .none).1 =
      Except.error (PyErr.valueError
        "Invalid lead_id format: bad!id. Only alphanumeric, hyphens, and underscores allowed")) :=
  ⟨by decide, by decide⟩

/-- C3 (amended).  The rate limiter runs BEFORE validation in `log_event`:
whenever the pruned window admits the call and validation then fails, the
call raises, and the admission timestamp has nevertheless been appended to
the window of the composite key. -/
theorem log_event_rate_limiter_before_validation (crypto : Crypto) (st : LoggerState)
    (now : Int) (ts : String) (event_type : String) (details : Json) (actor : String)
    (lead_id workflow : Option String) (err : PyErr × String × Option String)
    (hadm : (pruneWindow now (st.buckets (rateLimitKey workflow lead_id))).length
      < RATE_LIMIT_BURST)
    (herr : validateInputs event_type details actor lead_id workflow = .error err) :
    (∃ e, (log_event crypto st now ts event_type details actor lead_id workflow).1 =
        Except.error e) ∧
    (log_event crypto st now ts event_type details actor lead_id workflow).2.buckets
        (rateLimitKey workflow lead_id) =
      pruneWindow now (st.buckets (rateLimitKey workflow lead_id)) ++ [now] := by
  obtain ⟨e, etC, liC⟩ := err
  rw [log_event_validation_error crypto st now ts event_type details actor lead_id workflow
    e etC liC hadm herr]
  exact ⟨⟨e, rfl⟩, by simp⟩

/-- Witness for the amended C3 at a concrete invalid `lead_id`. -/
theorem log_event_rate_limiter_before_validation_witness :
    (∃ e, (log_event constCrypto (initState "sec") 5 "t0" "error" (Json.obj []) "system"
        (.some "bad!id") .none).1 = Except.error e) ∧
    (log_event constCrypto (initState "sec") 5 "t0" "error" (Json.obj []) "system"
        (.some "bad!id") .none).2.buckets (rateLimitKey .none (.some "bad!id")) =
      pruneWindow 5 ((initState "sec").buckets (rateLimitKey .none (.some "bad!id"))) ++ [5] :=
  log_event_rate_limiter_before_validation constCrypto (initState "sec") 5 "t0" "error"
    (Json.obj []) "system" (.some "bad!id") .none
    (.valueError "Invalid lead_id format: bad!id. Only alphanumeric, hyphens, and underscores allowed",
     "error", .some "bad!id")
    (by decide) (by decide)

/-- C4.  Per composite key, after pruning entries older than the window: a
window already holding at least `RATE_LIMIT_BURST` (200) entries makes
`log_event` return normally with nothing enqueued, the blocked counter
bumped, and a `rate_limit_exceeded` security event carrying the key and the
current count (the timestamp is not recorded); a smaller window gets the
timestamp appended and processing continues. -/
theorem log_event_rate_limit_behaviour (crypto : Crypto) (st : LoggerState) (now : Int)
    (ts : String) (event_type : String) (details : Json) (actor : String)
    (lead_id workflow : Option String)
    (hsec : st.securityLogEnabled = true) :
    ((pruneWindow now (st.buckets (rateLimitKey workflow lead_id))).length ≥ RATE_LIMIT_BURST →
      (log_event crypto st now ts event_type details actor lead_id workflow).1 = Except.ok () ∧
      (log_event crypto st now ts event_type details actor lead_id workflow).2.writeBuffer
        = st.writeBuffer ∧
      (log_event crypto st now ts event_type details actor lead_id workflow).2.blockedEventsCount
        = st.blockedEventsCount + 1 ∧
      (log_event crypto st now ts event_type details actor lead_id workflow).2.securityEvents.getLast?
        = some ⟨ts, "rate_limit_exceeded",
            .obj [("key", .str (rateLimitKey workflow lead_id)),
                  ("count", .num ((pruneWindow now (st.buckets (rateLimitKey workflow lead_id))).length : Int)),
                  ("limit", .num (RATE_LIMIT_BURST : Int))]⟩ ∧
      (log_event crypto st now ts event_type details actor lead_id workflow).2.buckets
          (rateLimitKey workflow lead_id)
        = pruneWindow now (st.buckets (rateLimitKey workflow lead_id))) ∧
    ((pruneWindow now (st.buckets (rateLimitKey workflow lead_id))).length < RATE_LIMIT_BURST →
      (log_event crypto st now ts event_type details actor lead_id workflow).2.buckets
          (rateLimitKey workflow lead_id)
        = pruneWindow now (st.buckets (rateLimitKey workflow lead_id)) ++ [now]) := by
  constructor
  · intro hfull
    unfold log_event
    dsimp only
    rw [check_rate_limit_blocks st _ now ts hfull]
    dsimp only
    refine ⟨rfl, rfl, rfl, ?_, by simp⟩
    rw [hsec]
    exact log_security_event_getLast _ _ _ _
  · intro hadm
    exact log_event_admitted_buckets crypto st now ts event_type details actor lead_id
      workflow hadm

set_option maxRecDepth 100000 in
/-- Witness for C4: a key at burst capacity is blocked; a fresh key admits. -/
theorem log_event_rate_limit_behaviour_witness :
    ((log_event constCrypto fullWindowState 0 "t0" "e" (Json.obj []) "system" .none .none).1
        = Except.ok () ∧
      (log_event constCrypto fullWindowState 0 "t0" "e" (Json.obj []) "system" .none .none).2.writeBuffer
        = fullWindowState.writeBuffer ∧
      (log_event constCrypto fullWindowState 0 "t0" "e" (Json.obj []) "system" .none .none).2.blockedEventsCount
        = fullWindowState.blockedEventsCount + 1 ∧
      (log_event constCrypto fullWindowState 0 "t0" "e" (Json.obj []) "system" .none .none).2.securityEvents.getLast?
        = some ⟨"t0", "rate_limit_exceeded",
            .obj [("key", .str (rateLimitKey .none .none)),
                  ("count", .num ((pruneWindow 0 (fullWindowState.buckets (rateLimitKey .none .none))).length : Int)),
                  ("limit", .num (RATE_LIMIT_BURST : Int))]⟩ ∧
      (log_event constCrypto fullWindowState 0 "t0" "e" (Json.obj []) "system" .none .none).2.buckets
          (rateLimitKey .none .none)
        = pruneWindow 0 (fullWindowState.buckets (rateLimitKey .none .none))) ∧
    ((log_event constCrypto (initState "sec") 0 "t0" "e" (Json.obj []) "system" .none .none).2.buckets
        (rateLimitKey .none .none)
      = pruneWindow 0 ((initState "sec").buckets (rateLimitKey .none .none)) ++ [0]) :=
  ⟨(log_event_rate_limit_behaviour constCrypto fullWindowState 0 "t0" "e" (Json.obj [])
      "system" .none .none rfl).1 (by decide),
   (log_event_rate_limit_behaviour constCrypto (initState "sec") 0 "t0" "e" (Json.obj [])
      "system" .none .none rfl).2 (by decide)⟩

theorem add_webhook_error_of_validate (webhooks : List String) (url : String) (e : PyErr)
    (h : validate_url url = .error e) : add_webhook webhooks url = .error e := by
  unfold add_webhook
  rw [h]

theorem validate_url_scheme_error (url : String)
    (h1 : (urlparse url).1 ≠ "http") (h2 : (urlparse url).1 ≠ "https") :
    ∃ e, validate_url url = .error e := by
  unfold validate_url
  split
  · exact ⟨_, rfl⟩
  · dsimp only
    rw [if_pos ⟨h1, h2⟩]
    exact ⟨_, rfl⟩

theorem validate_url_host_blocked (url : String) (h : String)
    (hh : (urlparse url).2 = some h)
    (hblk : h ∈ localhost_patterns ∨
      ∃ a b c d, parseIPv4 h = some (a, b, c, d) ∧ ipv4IsBlocked a b c d = true) :
    ∃ e, validate_url url = .error e := by
  unfold validate_url
  split
  · exact ⟨_, rfl⟩
  dsimp only
  split
  · exact ⟨_, rfl⟩
  rw [hh]
  dsimp only
  by_cases hc : localhost_patterns.contains h = true
  · rw [if_pos hc]
    exact ⟨_, rfl⟩
  · rw [if_neg hc]
    rcases hblk with hmem | ⟨a, b, c, d, hp, hbad⟩
    · exact absurd (List.elem_iff.mpr hmem) hc
    · rw [hp]
      dsimp only
      rw [if_pos hbad]
      exact ⟨_, rfl⟩

/-- C1 counterexample: the claim says every non-https URL (in particular any
plain-http one) is rejected at registration; but `_validate_url` allows the
`http` scheme, so registering a plain-http URL to a public host succeeds and
the URL is appended to the webhook list. -/
theorem add_webhook_accepts_plain_http :
    add_webhook [] "http://example.com/hook" = Except.ok ["http://example.com/hook"] := by
  decide

/-- C1 (amended).  Webhook registration allows exactly the `http` and
`https` schemes (so a plain-http URL to a public host is accepted, contrary
to HTTPS-only): any other scheme raises and leaves the list unchanged; a
hostname among the spelled-out loopback/metadata names, or parsing as a
private/loopback/link-local/reserved IPv4 literal, is rejected; registering
`http://127.0.0.1/hook` fails and `https://hooks.example.com/abc` succeeds. -/
theorem add_webhook_scheme_and_host_checks (webhooks : List String) (url : String) :
    ((urlparse url).1 ≠ "http" ∧ (urlparse url).1 ≠ "https" →
      ∃ e, add_webhook webhooks url = Except.error e) ∧
    (∀ h, (urlparse url).2 = some h →
      (h ∈ localhost_patterns ∨
        ∃ a b c d, parseIPv4 h = some (a, b, c, d) ∧ ipv4IsBlocked a b c d = true) →
      ∃ e, add_webhook webhooks url = Except.error e) ∧
    add_webhook webhooks "http://127.0.0.1/hook" =
      Except.error (PyErr.valueError
        "Blocked webhook URL: localhost/loopback addresses not allowed") ∧
    add_webhook webhooks "https://hooks.example.com/abc" =
      Except.ok (webhooks ++ ["https://hooks.example.com/abc"]) := by
  refine ⟨?_, ?_, ?_, ?_⟩
  · rintro ⟨h1, h2⟩
    obtain ⟨e, he⟩ := validate_url_scheme_error url h1 h2
    exact ⟨e, add_webhook_error_of_validate webhooks url e he⟩
  · intro h hh hblk
    obtain ⟨e, he⟩ := validate_url_host_blocked url h hh hblk
    exact ⟨e, add_webhook_error_of_validate webhooks url e he⟩
  · unfold add_webhook
    rw [show validate_url "http://127.0.0.1/hook" = Except.error (PyErr.valueError
      "Blocked webhook URL: localhost/loopback addresses not allowed") from by decide]
  · unfold add_webhook
    rw [show validate_url "https://hooks.example.com/abc" =
      Except.ok "https://hooks.example.com/abc" from by decide]

/-- Witness for the amended C1: an `ftp` URL and a private-IPv4 URL are
both rejected. -/
theorem add_webhook_scheme_and_host_checks_witness :
    (∃ e, add_webhook [] "ftp://example.com/a" = Except.error e) ∧
    (∃ e, add_webhook [] "https://192.168.1.7/x" = Except.error e) :=
  ⟨(add_webhook_scheme_and_host_checks [] "ftp://example.com/a").1 (by decide),
   (add_webhook_scheme_and_host_checks [] "https://192.168.1.7/x").2.1 "192.168.1.7"
     (by decide) (Or.inr ⟨192, 168, 1, 7, by decide, by decide⟩)⟩

theorem signEvent_strip (crypto : Crypto) (secret ts et ac : String)
    (li wf : Option String) (d : Json) :
    jsonRemoveKey (signEvent crypto secret (buildEvent ts et ac li wf d)) "signature" =
      buildEvent ts et ac li wf d := rfl

theorem signEvent_get (crypto : Crypto) (secret ts et ac : String)
    (li wf : Option String) (d : Json) :
    jsonGet (signEvent crypto secret (buildEvent ts et ac li wf d)) "signature" =
      some (.str (calculate_signature crypto secret
        (dumpsSorted (buildEvent ts et ac li wf d)))) := rfl

/-- C5.  With integrity enabled, the event that `log_event` enqueues stores
in its `signature` field exactly the HMAC of the key-sorted canonical JSON
of the event with the signature member removed — so re-signing the stripped
event reproduces the stored signature. -/
theorem log_event_signature_roundtrip (crypto : Crypto) (st : LoggerState) (now : Int)
    (ts : String) (event_type : String) (details : Json) (actor : String)
    (lead_id workflow : Option String) (et ac : String) (li wf : Option String)
    (hint : st.enableIntegrity = true)
    (hadm : (pruneWindow now (st.buckets (rateLimitKey workflow lead_id))).length
      < RATE_LIMIT_BURST)
    (hok : validateInputs event_type details actor lead_id workflow = .ok (et, ac, li, wf)) :
    ∃ ev,
      (log_event crypto st now ts event_type details actor lead_id workflow).2.writeBuffer.getLast?
        = some ev ∧
      jsonGet ev "signature" =
        some (.str (calculate_signature crypto st.secretKey
          (dumpsSorted (jsonRemoveKey ev "signature")))) := by
  unfold log_event
  dsimp only
  rw [check_rate_limit_admits st _ now ts hadm]
  dsimp only
  rw [hok]
  dsimp only
  rw [send_to_webhooks_writeBuffer, trigger_alerts_writeBuffer]
  dsimp only
  by_cases hrot : st.rotationNeeded = true
  · rw [if_pos hrot]
    dsimp only [rotate_log]
    rw [hint, if_pos rfl]
    exact ⟨_, List.getLast?_concat _, by rw [signEvent_strip, signEvent_get]⟩
  · rw [if_neg hrot]
    dsimp only
    rw [hint, if_pos rfl]
    exact ⟨_, List.getLast?_concat _, by rw [signEvent_strip, signEvent_get]⟩

/-- Witness for C5 at a concrete valid call. -/
theorem log_event_signature_roundtrip_witness :
    ∃ ev,
      (log_event constCrypto (initState "sec") 5 "t0" "lead_ingested"
          (Json.obj [("source", .str "web_form")]) "system"
          (.some "LEAD-001") (.some "sales")).2.writeBuffer.getLast? = some ev ∧
      jsonGet ev "signature" =
        some (.str (calculate_signature constCrypto (initState "sec").secretKey
          (dumpsSorted (jsonRemoveKey ev "signature")))) :=
  log_event_signature_roundtrip constCrypto (initState "sec") 5 "t0" "lead_ingested"
    (Json.obj [("source", .str "web_form")]) "system" (.some "LEAD-001") (.some "sales")
    "lead_ingested" "system" (.some "LEAD-001") (.some "sales")
    rfl (by decide) (by decide)

/-- C6 counterexample: the workflow name `"<script>"` contains characters
outside `[A-Za-z0-9_-]`, yet workflow validation accepts it and the event
is enqueued — `_validate_workflow` performs no character-class check. -/
theorem log_event_script_workflow_accepted :
    validate_workflow "<script>" = Except.ok "<script>" ∧
    ((log_event constCrypto (initState "sec") 5 "t0" "lead_ingested" (Json.obj []) "system"
        .none (.some "<script>")).1 = Except.ok ()) ∧
    ((log_event constCrypto (initState "sec") 5 "t0" "lead_ingested" (Json.obj []) "system"
        .none (.some "<script>")).2.writeBuffer.length = 1) :=
  ⟨by decide, by decide, by decide⟩

/-- C6 (amended).  Workflow validation enforces only sanitization (control
characters stripped, truncation at 100) and non-emptiness: every string
that sanitizes to something non-empty is accepted — including ones with
characters outside `[A-Za-z0-9_-]`, unlike `lead_id` — and only a string
sanitizing to empty raises. -/
theorem validate_workflow_no_charset_check (w : String) :
    (sanitize_string w MAX_WORKFLOW_LENGTH ≠ "" →
      validate_workflow w = .ok (sanitize_string w MAX_WORKFLOW_LENGTH)) ∧
    (sanitize_string w MAX_WORKFLOW_LENGTH = "" →
      validate_workflow w = .error (.valueError "workflow cannot be empty")) := by
  unfold validate_workflow
  dsimp only
  constructor
  · intro h
    rw [if_neg h]
  · intro h
    rw [if_pos h]

/-- Witness for the amended C6. -/
theorem validate_workflow_no_charset_check_witness :
    validate_workflow "<script>" = Except.ok (sanitize_string "<script>" MAX_WORKFLOW_LENGTH) :=
  (validate_workflow_no_charset_check "<script>").1 (by decide)

theorem statsProcessLine_mkLeadLine (s : Stats) (a : Nat)
    (hnotmem : Json.num ((a : Int) + 1) ∉ s.leads) :
    (statsProcessLine .none s (mkLeadLine a)).leads =
      s.leads ++ [Json.num ((a : Int) + 1)] := by
  have hb : pyTruthy (jsonGetD (Json.obj [("lead_id", Json.num ((a : Int) + 1))])
      "lead_id" .null) = true := by
    show (((a : Int) + 1) != 0) = true
    rw [bne_iff_ne]
    omega
  have hc : s.leads.contains (Json.num ((a : Int) + 1)) = false := by
    cases hcc : s.leads.contains (Json.num ((a : Int) + 1)) with
    | false => rfl
    | true => exact absurd (List.elem_iff.mp hcc) hnotmem
  rw [show mkLeadLine a = some (Json.obj [("lead_id", Json.num ((a : Int) + 1))]) from rfl]
  simp only [statsProcessLine]
  rw [if_neg (by simp [workflowMismatch])]
  rw [if_pos hb]
  rw [if_neg (show ¬(jsonGetD (Json.obj [("lead_id", Json.num ((a : Int) + 1))])
    "event_type" (Json.str "unknown") = Json.str "error") from by
      rw [show jsonGetD (Json.obj [("lead_id", Json.num ((a : Int) + 1))])
        "event_type" (Json.str "unknown") = Json.str "unknown" from rfl]
      decide)]
  show setAdd s.leads (Json.num ((a : Int) + 1)) = _
  unfold setAdd
  rw [if_neg (by simpa using hnotmem)]

theorem statsLoop_distinct_leads :
    ∀ (n a : Nat) (s : Stats),
      s.leads.length + n ≤ MAX_MEMORY_EVENTS + 1 →
      (∀ i, a ≤ i → Json.num ((i : Int) + 1) ∉ s.leads) →
      (statsLoop .none ((List.range' a n).map mkLeadLine) s).leads.length
        = s.leads.length + n
  | 0, a, s, _, _ => by simp [statsLoop]
  | n + 1, a, s, hlen, hmem => by
    rw [List.range'_succ, List.map_cons]
    have hle : s.leads.length ≤ MAX_MEMORY_EVENTS := by omega
    rw [show statsLoop .none (mkLeadLine a :: (List.range' (a + 1) n).map mkLeadLine) s
        = statsLoop .none ((List.range' (a + 1) n).map mkLeadLine)
            (statsProcessLine .none s (mkLeadLine a)) from by
      simp only [statsLoop]
      rw [if_neg (by omega)]]
    have hproc := statsProcessLine_mkLeadLine s a (hmem a le_rfl)
    have hmem2 : ∀ i, a + 1 ≤ i →
        Json.num ((i : Int) + 1) ∉ (statsProcessLine .none s (mkLeadLine a)).leads := by
      intro i hi
      rw [hproc]
      intro hin
      rcases List.mem_append.mp hin with hin | hin
      · exact hmem i (by omega) hin
      · have heq : (i : Int) + 1 = (a : Int) + 1 :=
          Json.num.inj (by simpa using hin)
        omega
    have ih := statsLoop_distinct_leads n (a + 1) (statsProcessLine .none s (mkLeadLine a))
      (by rw [hproc]; rw [List.length_append]; simpa using by omega) hmem2
    rw [ih, hproc, List.length_append]
    simp only [List.length_singleton]
    omega

/-- C7 counterexample: a log of 10001 lines carrying distinct lead
identifiers makes `get_statistics` report 10001 distinct leads — the loop
stops only once the set size EXCEEDS `MAX_MEMORY_EVENTS` (10000), so the
claimed bound of 10000 is off by one. -/
theorem get_statistics_leads_exceed_cap :
    (get_statistics ((List.range' 0 (MAX_MEMORY_EVENTS + 1)).map mkLeadLine) .none).leads.length
      = MAX_MEMORY_EVENTS + 1 := by
  have h := statsLoop_distinct_leads (MAX_MEMORY_EVENTS + 1) 0 initStats
    (by simp [initStats]) (by intro i _; simp [initStats])
  simpa [get_statistics, initStats] using h

theorem setAdd_length_le (s : List Json) (x : Json) :
    (setAdd s x).length ≤ s.length + 1 := by
  unfold setAdd
  split <;> simp

theorem statsProcessLine_leads_le (wf : Option String) (s : Stats) (line : Option Json) :
    (statsProcessLine wf s line).leads.length ≤ s.leads.length + 1 := by
  cases line with
  | none => simp [statsProcessLine]
  | some ev =>
    simp only [statsProcessLine]
    split
    · simp
    · split <;> split <;> simp [setAdd_length_le]

theorem statsLoop_leads_le (wf : Option String) :
    ∀ (lines : List (Option Json)) (s : Stats),
      s.leads.length ≤ MAX_MEMORY_EVENTS + 1 →
      (statsLoop wf lines s).leads.length ≤ MAX_MEMORY_EVENTS + 1
  | [], s, h => by simpa [statsLoop] using h
  | line :: rest, s, h => by
    unfold statsLoop
    split
    · exact h
    · next hgt =>
      refine statsLoop_leads_le wf rest _ ?_
      have := statsProcessLine_leads_le wf s line
      simp only [not_lt] at hgt
      omega

/-- C7 (amended).  The distinct-lead count reported by `get_statistics`
never exceeds `MAX_MEMORY_EVENTS + 1` (10001): the scan stops, with partial
counts rather than a failure, once the set has grown past the cap — which
lets it reach 10001, not 10000. -/
theorem get_statistics_leads_bounded (lines : List (Option Json)) (workflow : Option String) :
    (get_statistics lines workflow).leads.length ≤ MAX_MEMORY_EVENTS + 1 :=
  statsLoop_leads_le workflow lines initStats (by simp [initStats])

/-- C8 counterexample: with the error counter reaching the threshold
(default 10) and no alert ever sent, but no notification sinks registered,
`_trigger_alerts` does NOT reset the counter — the reset happens only when
the handler list is non-empty, so the claimed unconditional reset at
threshold is false. -/
theorem trigger_alerts_no_sinks_no_reset :
    ((trigger_alerts { initState "sec" with errorCount := 9 } errorEvent 100).errorCount = 10) ∧
    ((trigger_alerts { initState "sec" with errorCount := 9 } errorEvent 100).alertsSent = []) :=
  ⟨by decide, by decide⟩

/-- C8 (amended).  `_trigger_alerts` bumps the counter on every
`error`-typed event and leaves it unchanged otherwise; when the bumped
counter reaches the threshold, the cooldown test passes (no prior alert,
a zero alert time, or the cooldown elapsed) AND at least one notification
sink is registered, the formatted summary is broadcast to the sinks, the
counter resets to 0 and the alert time is stamped; with no sink registered
(or threshold/cooldown unmet) the counter keeps the bumped value and
nothing is sent. -/
theorem trigger_alerts_spec (st : LoggerState) (ev : Json) (now : Int) :
    (jsonGetD ev "event_type" .null ≠ .str "error" → trigger_alerts st ev now = st) ∧
    (jsonGetD ev "event_type" .null = .str "error" →
      ((st.errorCount + 1 ≥ st.errorThreshold ∧
        (match st.lastAlertTime with
         | .none => True
         | .some t => t = 0 ∨ now - t ≥ st.alertCooldown) ∧
        st.alertHandlers ≠ 0) →
        (trigger_alerts st ev now).alertsSent
            = st.alertsSent ++ [alertMessage (st.errorCount + 1) ev] ∧
        (trigger_alerts st ev now).errorCount = 0 ∧
        (trigger_alerts st ev now).lastAlertTime = some now) ∧
      ((¬(st.errorCount + 1 ≥ st.errorThreshold ∧
          (match st.lastAlertTime with
           | .none => True
           | .some t => t = 0 ∨ now - t ≥ st.alertCooldown)) ∨ st.alertHandlers = 0) →
        (trigger_alerts st ev now).errorCount = st.errorCount + 1 ∧
        (trigger_alerts st ev now).alertsSent = st.alertsSent)) := by
  constructor
  · intro h
    unfold trigger_alerts
    rw [if_neg h]
  · intro h
    unfold trigger_alerts
    rw [if_pos h]
    dsimp only
    cases hl : st.lastAlertTime with
    | none =>
      dsimp only
      constructor
      · rintro ⟨h1, _, h3⟩
        rw [if_pos (by simp [h1, h3])]
        exact ⟨rfl, rfl, rfl⟩
      · intro hneg
        rcases hneg with hneg | hneg
        · have h1 : ¬st.errorCount + 1 ≥ st.errorThreshold := fun hth => hneg ⟨hth, trivial⟩
          rw [if_neg (by simp [h1])]
          exact ⟨rfl, rfl⟩
        · rw [if_neg (by simp [hneg])]
          exact ⟨rfl, rfl⟩
    | some t =>
      dsimp only
      constructor
      · rintro ⟨h1, h2, h3⟩
        by_cases ht : t = 0
        · rw [ht, if_neg (show ¬((0 : Int) ≠ 0) from by simp)]
          split
          · exact ⟨rfl, rfl, rfl⟩
          · next hcond => exact absurd (by simp [h1, h3]) hcond
        · rw [if_pos ht]
          split
          · exact ⟨rfl, rfl, rfl⟩
          · next hcond => exact absurd (by simp [h1, h2.resolve_left ht, h3]) hcond
      · intro hneg
        by_cases ht : t = 0
        · rw [ht, if_neg (show ¬((0 : Int) ≠ 0) from by simp)]
          split
          · next hcond =>
            exfalso
            simp only [Bool.and_eq_true, decide_eq_true_eq] at hcond
            rcases hneg with hneg | hneg
            · exact hneg ⟨hcond.1, Or.inl ht⟩
            · exact hcond.2 hneg
          · exact ⟨rfl, rfl⟩
        · rw [if_pos ht]
          split
          · next hcond =>
            exfalso
            simp only [Bool.and_eq_true, decide_eq_true_eq] at hcond
            rcases hneg with hneg | hneg
            · exact hneg ⟨hcond.1.1, Or.inr hcond.1.2⟩
            · exact hcond.2 hneg
          · exact ⟨rfl, rfl⟩

/-- Witness for the amended C8: a non-error event leaves the state alone; at
threshold with one sink the alert fires and the counter resets; at
threshold with no sink the counter keeps growing. -/
theorem trigger_alerts_spec_witness :
    (trigger_alerts (initState "sec") (Json.obj [("event_type", .str "lead_ingested")]) 7
      = initState "sec") ∧
    ((trigger_alerts { initState "sec" with errorCount := 9, alertHandlers := 1 }
        errorEvent 100).alertsSent
      = (initState "sec").alertsSent ++ [alertMessage 10 errorEvent] ∧
     (trigger_alerts { initState "sec" with errorCount := 9, alertHandlers := 1 }
        errorEvent 100).errorCount = 0 ∧
     (trigger_alerts { initState "sec" with errorCount := 9, alertHandlers := 1 }
        errorEvent 100).lastAlertTime = some 100) ∧
    ((trigger_alerts { initState "sec" with errorCount := 9 } errorEvent 100).errorCount
        = 9 + 1 ∧
     (trigger_alerts { initState "sec" with errorCount := 9 } errorEvent 100).alertsSent
        = (initState "sec").alertsSent) :=
  ⟨(trigger_alerts_spec (initState "sec") (Json.obj [("event_type", .str "lead_ingested")]) 7).1
      (by decide),
   (trigger_alerts_spec { initState "sec" with errorCount := 9, alertHandlers := 1 }
      errorEvent 100).2 (by decide) |>.1 (by exact ⟨by decide, trivial, by decide⟩),
   (trigger_alerts_spec { initState "sec" with errorCount := 9 } errorEvent 100).2
      (by decide) |>.2 (Or.inr rfl)⟩

theorem cacheLookup_mem (cache : QueryCache) (key : String) (v : List Json × Int)
    (h : cacheLookup cache key = some v) : (key, v.1, v.2) ∈ cache := by
  unfold cacheLookup at h
  cases hf : cache.find? (fun e => e.1 == key) with
  | none => rw [hf] at h; cases h
  | some e =>
    rw [hf] at h
    cases h
    have hm := List.mem_of_find?_eq_some hf
    have hp : e.1 = key := by simpa using List.find?_some hf
    have : (key, e.2.1, e.2.2) = e := by
      rw [← hp]
    rw [this]
    exact hm

theorem cacheLookup_filter_self (cache : QueryCache) (key : String) :
    cacheLookup (cache.filter (fun e => e.1 != key)) key = none := by
  induction cache with
  | nil => rfl
  | cons e es ih =>
    rw [List.filter_cons]
    by_cases he : e.1 = key
    · rw [if_neg (by simp [he])]
      exact ih
    · rw [if_pos (by simp [he])]
      unfold cacheLookup at ih ⊢
      rw [List.find?_cons_of_neg _ (by simp [he])]
      exact ih

theorem get_from_cache_some_mem (cache : QueryCache) (key : String) (now : Int)
    (results : List Json) (cache2 : QueryCache)
    (h : get_from_cache cache key now = (some results, cache2)) :
    ∃ t, (key, results, t) ∈ cache := by
  unfold get_from_cache at h
  cases hcl : cacheLookup cache key with
  | none =>
    rw [hcl] at h
    cases h
  | some v =>
    obtain ⟨res, tv⟩ := v
    rw [hcl] at h
    dsimp only at h
    split at h
    · have h1 : res = results := Option.some.inj (congrArg Prod.fst h)
      subst h1
      exact ⟨tv, cacheLookup_mem cache key (res, tv) hcl⟩
    · cases h

theorem get_from_cache_none_props (cache : QueryCache) (key : String) (now : Int)
    (cache2 : QueryCache)
    (h : get_from_cache cache key now = (none, cache2)) :
    (∀ p, p ∈ cache2 → p ∈ cache) ∧ cacheLookup cache2 key = none := by
  unfold get_from_cache at h
  cases hcl : cacheLookup cache key with
  | none =>
    rw [hcl] at h
    cases h
    exact ⟨fun p hp => hp, hcl⟩
  | some v =>
    obtain ⟨res, tv⟩ := v
    rw [hcl] at h
    dsimp only at h
    split at h
    · cases h
    · cases h
      exact ⟨fun p hp => (List.mem_filter.mp hp).1, cacheLookup_filter_self cache key⟩

/-- C9 (implicit).  `query_events` stores a result set in the query cache
only when the scan found at least one match: a call whose result is the
empty list inserts nothing (the cache can only shrink, by expiry of the
looked-up key), and afterwards the cache holds no entry for this filter
tuple, so an identical repeated call rescans the log instead of being
served from cache.  `hwf` states the cache invariant that `put_in_cache`
maintains: no cached result set is empty. -/
theorem query_events_eq_of_hit (tc : TimeCodec) (cache : QueryCache)
    (lines : List (Option Json)) (f : QueryFilter) (now : Int)
    (results : List Json) (cache2 : QueryCache)
    (h : get_from_cache cache (get_cache_key tc f) now = (some results, cache2)) :
    query_events tc true cache lines f now = (results, cache2) := by
  unfold query_events
  rw [if_pos rfl]
  dsimp only
  rw [h]

theorem query_events_eq_of_miss (tc : TimeCodec) (cache : QueryCache)
    (lines : List (Option Json)) (f : QueryFilter) (now : Int) (cache2 : QueryCache)
    (h : get_from_cache cache (get_cache_key tc f) now = (none, cache2)) :
    query_events tc true cache lines f now =
      (if !(scanEvents tc f lines []).isEmpty then
        (scanEvents tc f lines [],
         put_in_cache cache2 (get_cache_key tc f) (scanEvents tc f lines []) now)
       else (scanEvents tc f lines [], cache2)) := by
  unfold query_events
  rw [if_pos rfl]
  dsimp only
  rw [h]

/-- C9 (implicit).  `query_events` stores a result set in the query cache
only when the scan found at least one match: a call whose result is the
empty list inserts nothing (the cache can only shrink, by expiry of the
looked-up key), and afterwards the cache holds no entry for this filter
tuple, so an identical repeated call rescans the log instead of being
served from cache.  `hwf` states the cache invariant that `put_in_cache`
maintains: no cached result set is empty. -/
theorem query_events_empty_not_cached (tc : TimeCodec) (cache : QueryCache)
    (lines : List (Option Json)) (f : QueryFilter) (now : Int)
    (hwf : ∀ p, p ∈ cache → p.2.1 ≠ ([] : List Json))
    (hempty : (query_events tc true cache lines f now).1 = []) :
    (∀ p, p ∈ (query_events tc true cache lines f now).2 → p ∈ cache) ∧
    cacheLookup (query_events tc true cache lines f now).2 (get_cache_key tc f) = none := by
  rcases hgc : get_from_cache cache (get_cache_key tc f) now with ⟨_ | results, cache2⟩
  · have hq := query_events_eq_of_miss tc cache lines f now cache2 hgc
    rw [hq] at hempty ⊢
    rw [apply_ite Prod.fst] at hempty
    dsimp only at hempty
    rw [ite_self] at hempty
    simp only [apply_ite Prod.snd]
    rw [hempty]
    rw [if_neg (by simp)]
    exact get_from_cache_none_props cache (get_cache_key tc f) now cache2 hgc
  · have hq := query_events_eq_of_hit tc cache lines f now results cache2 hgc
    rw [hq] at hempty
    obtain ⟨t, hmem⟩ := get_from_cache_some_mem cache (get_cache_key tc f) now results
      cache2 hgc
    exact absurd hempty (hwf (get_cache_key tc f, results, t) hmem)

/-- Witness for C9 at a concrete empty-result query on a fresh cache. -/
theorem query_events_empty_not_cached_witness :
    (∀ p, p ∈ (query_events unitTimeCodec true []
        [some (Json.obj [("event_type", .str "a")])] sampleFilter 0).2 →
      p ∈ ([] : QueryCache)) ∧
    cacheLookup (query_events unitTimeCodec true []
        [some (Json.obj [("event_type", .str "a")])] sampleFilter 0).2
      (get_cache_key unitTimeCodec sampleFilter) = none :=
  query_events_empty_not_cached unitTimeCodec [] [some (Json.obj [("event_type", .str "a")])]
    sampleFilter 0 (by simp) (by decide)

/-- C10 (implicit).  `get_security_events` slices the most recent `last_n`
entries of the in-memory buffer FIRST and only then filters by type; with
buffer `[a-event, b-event]` and `last_n = 1` it returns no event of type
`"a"` even though one such event sits earlier in the buffer. -/
theorem get_security_events_slices_then_filters :
    (∀ (events : List SecurityEvent) (et : String) (n : Int), et ≠ "" →
      get_security_events events (.some et) n =
        (if (0 : Int) < n then
          events.drop (events.length - (min n (events.length : Int)).toNat)
         else events.drop (min (-n) (events.length : Int)).toNat).filter
          (fun e => e.type == et)) ∧
    (get_security_events [⟨"t1", "a", .null⟩, ⟨"t2", "b", .null⟩] (.some "a") 1 = [] ∧
     (([⟨"t1", "a", .null⟩, ⟨"t2", "b", .null⟩] : List SecurityEvent).filter
        (fun e => e.type == "a")).length = 1) := by
  refine ⟨?_, by decide, by decide⟩
  intro events et n hne
  unfold get_security_events
  dsimp only
  rw [if_neg hne]

/-- Witness for C10: the general slice-then-filter shape at the concrete
two-event buffer. -/
theorem get_security_events_slices_then_filters_witness :
    get_security_events [⟨"t1", "a", .null⟩, ⟨"t2", "b", .null⟩] (.some "a") 1 =
      (if (0 : Int) < 1 then
        ([⟨"t1", "a", .null⟩, ⟨"t2", "b", .null⟩] : List SecurityEvent).drop
          (([⟨"t1", "a", .null⟩, ⟨"t2", "b", .null⟩] : List SecurityEvent).length -
            (min 1 (([⟨"t1", "a", .null⟩, ⟨"t2", "b", .null⟩] : List SecurityEvent).length : Int)).toNat)
       else ([⟨"t1", "a", .null⟩, ⟨"t2", "b", .null⟩] : List SecurityEvent).drop
          (min (-1) (([⟨"t1", "a", .null⟩, ⟨"t2", "b", .null⟩] : List SecurityEvent).length : Int)).toNat).filter
        (fun e => e.type == "a") :=
  get_security_events_slices_then_filters.1 [⟨"t1", "a", .null⟩, ⟨"t2", "b", .null⟩] "a" 1
    (by decide)

end AuditPy
